import Mathlib

/-!
Verification of the socketscpi transport library (socketscpi/socketscpi.py).

The shallow embedding below models the protocol layer of the library:
the IEEE 488.2 binary block codec (`binblock_header`, `query_binary_values`,
`write_binary_values`), the error-queue drain (`err_check`), and the
two-flag automatic error-check policy shared by `write`, `query`,
`query_binary_values` and `write_binary_values`.

Modelling conventions:
* Bytes on the wire are `Nat` values (latin_1 decoding is the identity on
  byte values, so a byte and its decoded character code coincide).
* The instrument's data stream is a list of bytes in arrival order; a
  `recv` on an exhausted stream models a `socket.timeout`.
* Responses to the `system:error?` query are modelled as a separate
  channel (`errResponses`), one response string per query, since they are
  request/response exchanges distinct from the binary-block payload.
* Python exceptions become an explicit error type `PyErr`; `SockInstError`
  raised by `err_check` carries the accumulated list of error strings.
* The connection's mutable state (pending stream, error channel, current
  socket timeout, trace of externally visible operations) is threaded
  explicitly through every operation.
-/

namespace Socketscpi

/-- Exceptions raised by the library: `SockInstError` (with either an error
list from `err_check` or a plain message), `BinblockError` with its message,
Python `ValueError` from `int()` parsing, `socket.timeout`, and Python's
`UnboundLocalError` (reachable in `query` when the read times out and the
error queue is empty). -/
inductive PyErr where
  | sockInstError (errs : List (List Char))
  | sockInstMsg (msg : String)
  | binblockError (msg : String)
  | valueError
  | sockTimeout
  | unboundLocal
deriving DecidableEq

/-- Externally visible operations recorded while an API call runs: a command
written to the socket, or an invocation of the error checker. -/
inductive Effect where
  | writeCmd (cmd : String)
  | errCheckRun
deriving DecidableEq

/-- Connection state of a `SocketInstrument`: the pending instrument data
stream, the channel of `system:error?` responses, the socket's current
timeout (`socket.settimeout`), and the trace of performed effects. -/
structure ConnState where
  stream : List Nat
  errResponses : List (List Char)
  timeout : Nat
  trace : List Effect
deriving DecidableEq

/-! ## Python string primitives used by `err_check` -/

/-- Whitespace characters removed by Python's `str.strip()`. -/
def isPyWS (c : Char) : Bool :=
  c = ' ' || c = '\t' || c = '\n' || c = '\r' || c = '\x0b' || c = '\x0c'

/-- Python `str.strip()`: remove leading and trailing whitespace. -/
def stripWS (s : List Char) : List Char :=
  ((s.dropWhile isPyWS).reverse.dropWhile isPyWS).reverse

/-- Python `str.replace(old, '')` for a one-character `old`: delete every
occurrence of that character. -/
def pyReplaceEmpty (old : Char) (s : List Char) : List Char :=
  s.filter (fun c => c ≠ old)

/-- Normalization applied by `err_check` to each `system:error?` response:
`.strip().replace('+', '').replace('-', '')` (socketscpi.py line 206/214). -/
def normalize (s : List Char) : List Char :=
  pyReplaceEmpty '-' (pyReplaceEmpty '+' (stripWS s))

/-- No-error sentinel text checked by `err_check` (line 209): the loop stops
when the normalized response contains this substring. -/
def sentinel : List Char := "0,\"No error".data

/-- Error-queue drain loop of `err_check` (lines 209-214): normalize each
response; stop at the first response containing the sentinel substring;
accumulate every earlier normalized response, in order.  Returns `none` when
the channel is exhausted before a sentinel appears (the next query would then
block forever / time out). -/
def errCheckDrain : List (List Char) → Option (List (List Char) × List (List Char))
  | [] => none
  | r :: rest =>
    let t := normalize r
    if sentinel <:+: t then some ([], rest)
    else
      match errCheckDrain rest with
      | none => none
      | some (errs, rem) => some (t :: errs, rem)

/-- `SocketInstrument.err_check` (lines 198-216): drain the error queue; if
any error was accumulated, raise `SockInstError` with the ordered list. -/
def err_check (s : ConnState) : Except PyErr Unit × ConnState :=
  match errCheckDrain s.errResponses with
  | none =>
      (Except.error PyErr.sockTimeout,
        { s with errResponses := [], trace := s.trace ++ [Effect.errCheckRun] })
  | some (errs, rem) =>
      let s1 := { s with errResponses := rem, trace := s.trace ++ [Effect.errCheckRun] }
      if errs.isEmpty then (Except.ok (), s1)
      else (Except.error (PyErr.sockInstError errs), s1)

/-! ## Decimal and hexadecimal digit primitives -/

/-- Little-endian base-10 digits, fuel-based so that it evaluates by kernel
reduction; `decDigitsRev` below supplies sufficient fuel. -/
def decDigitsRevAux : Nat → Nat → List Nat
  | 0, _ => []
  | fuel + 1, n => if n = 0 then [] else n % 10 :: decDigitsRevAux fuel (n / 10)

/-- Little-endian base-10 digits of `n` (empty for `n = 0`). -/
def decDigitsRev (n : Nat) : List Nat :=
  decDigitsRevAux n n

/-- Decimal representation of a natural number, as produced by Python's
`str()` / f-string formatting of a nonnegative int. -/
def pyStrNat (n : Nat) : List Char :=
  if n = 0 then ['0'] else ((decDigitsRev n).map Nat.digitChar).reverse

/-- Whether a byte is an ASCII decimal digit. -/
def isDigitByte (b : Nat) : Bool :=
  decide (48 ≤ b ∧ b ≤ 57)

/-- Python `int(s)` on the latin_1 decoding of a byte string made of decimal
digits; `none` models the `ValueError` raised on an empty or non-digit
string. -/
def parseDec (bs : List Nat) : Option Nat :=
  if bs = [] then none
  else if bs.all isDigitByte then
    some (Nat.ofDigits 10 ((bs.map (fun b => b - 48)).reverse))
  else none

/-- Python `int(c, 16)` on a single latin_1-decoded byte: the value of a
hexadecimal digit, or `none` for the `ValueError` on any other byte. -/
def hexDigitVal (b : Nat) : Option Nat :=
  if 48 ≤ b ∧ b ≤ 57 then some (b - 48)
  else if 97 ≤ b ∧ b ≤ 102 then some (b - 87)
  else if 65 ≤ b ∧ b ≤ 70 then some (b - 55)
  else none

/-! ## Lemmas about the decimal digit primitives -/

theorem decDigitsRevAux_eq_digits (fuel n : Nat) (h : n ≤ fuel) :
    decDigitsRevAux fuel n = Nat.digits 10 n := by
  induction fuel generalizing n with
  | zero =>
      interval_cases n
      simp [decDigitsRevAux]
  | succ fuel ih =>
      by_cases hn : n = 0
      · simp [decDigitsRevAux, hn]
      · rw [decDigitsRevAux, if_neg hn,
          ih (n / 10) (Nat.le_of_lt_succ (Nat.lt_of_lt_of_le (Nat.div_lt_self
            (Nat.pos_of_ne_zero hn) (by norm_num)) h)),
          Nat.digits_def' (by norm_num : (1:Nat) < 10) (Nat.pos_of_ne_zero hn)]

theorem decDigitsRev_eq_digits (n : Nat) : decDigitsRev n = Nat.digits 10 n :=
  decDigitsRevAux_eq_digits n n le_rfl

theorem digitChar_toNat {d : Nat} (h : d < 10) : (Nat.digitChar d).toNat = 48 + d := by
  interval_cases d <;> rfl

/-- Round trip: parsing the byte encoding of the decimal representation of
`n` recovers `n`. -/
theorem parseDec_pyStrNat (n : Nat) :
    parseDec ((pyStrNat n).map Char.toNat) = some n := by
  by_cases hn : n = 0
  · subst hn; rfl
  · have hd : ∀ d ∈ Nat.digits 10 n, d < 10 := fun d hdm =>
      Nat.digits_lt_base (by norm_num) hdm
    have hne : Nat.digits 10 n ≠ [] := Nat.digits_ne_nil_iff_ne_zero.mpr hn
    rw [pyStrNat, if_neg hn, decDigitsRev_eq_digits]
    rw [List.map_reverse, List.map_map]
    have hmap : (Nat.digits 10 n).map (Char.toNat ∘ Nat.digitChar) =
        (Nat.digits 10 n).map (fun d => 48 + d) := by
      apply List.map_congr_left
      intro d hdm
      exact digitChar_toNat (hd d hdm)
    rw [hmap, parseDec]
    have hnil : ((Nat.digits 10 n).map (fun d => 48 + d)).reverse ≠ [] := by
      simp [hne]
    rw [if_neg hnil]
    have hall : (((Nat.digits 10 n).map (fun d => 48 + d)).reverse).all isDigitByte = true := by
      rw [List.all_eq_true]
      intro b hb
      rw [List.mem_reverse, List.mem_map] at hb
      obtain ⟨d, hdm, rfl⟩ := hb
      have := hd d hdm
      simp only [isDigitByte, decide_eq_true_eq]
      omega
    rw [if_pos hall]
    have hback : ((((Nat.digits 10 n).map (fun d => 48 + d)).reverse).map
        (fun b => b - 48)).reverse = Nat.digits 10 n := by
      rw [List.map_reverse, List.reverse_reverse, List.map_map]
      have : (Nat.digits 10 n).map ((fun b => b - 48) ∘ fun d => 48 + d) =
          (Nat.digits 10 n).map id := by
        apply List.map_congr_left
        intro d _
        simp
      rw [this, List.map_id]
    rw [hback, Nat.ofDigits_digits]

/-- Length of the decimal representation: at most 9 characters below `10^9`. -/
theorem pyStrNat_length_le_nine {n : Nat} (h : n < 10 ^ 9) :
    (pyStrNat n).length ≤ 9 := by
  by_cases hn : n = 0
  · subst hn; simp [pyStrNat]
  · rw [pyStrNat, if_neg hn, List.length_reverse, List.length_map,
      decDigitsRev_eq_digits]
    by_contra hlen
    push_neg at hlen
    have hb : (10:Nat) ^ (Nat.digits 10 n).length ≤ 10 * n :=
      Nat.base_pow_length_digits_le 10 n (by norm_num) hn
    have h10 : (10:Nat) ^ 10 ≤ 10 ^ (Nat.digits 10 n).length :=
      Nat.pow_le_pow_right (by norm_num) hlen
    have : (10:Nat) ^ 10 ≤ 10 * n := le_trans h10 hb
    have : (10:Nat) ^ 9 ≤ n := by
      have h10' : (10:Nat) ^ 10 = 10 * 10 ^ 9 := by ring
      omega
    omega

theorem pyStrNat_length_pos (n : Nat) : 1 ≤ (pyStrNat n).length := by
  by_cases hn : n = 0
  · subst hn; simp [pyStrNat]
  · rw [pyStrNat, if_neg hn, List.length_reverse, List.length_map,
      decDigitsRev_eq_digits]
    have hne : Nat.digits 10 n ≠ [] := Nat.digits_ne_nil_iff_ne_zero.mpr hn
    cases h : Nat.digits 10 n with
    | nil => exact absurd h hne
    | cons a l => simp

/-- For a one-digit value (the digit-count field of a well-formed header),
the decimal representation is the single corresponding digit character. -/
theorem pyStrNat_single {d : Nat} (h1 : 1 ≤ d) (h9 : d ≤ 9) :
    pyStrNat d = [Nat.digitChar d] := by
  rw [pyStrNat, if_neg (by omega), decDigitsRev_eq_digits,
    Nat.digits_of_lt 10 d (by omega) (by omega)]
  rfl

/-- Parsing a digit character of a digit-count between 1 and 9 as a single
hexadecimal digit recovers the count. -/
theorem hexDigitVal_digitChar {d : Nat} (h1 : 1 ≤ d) (h9 : d ≤ 9) :
    hexDigitVal (Nat.digitChar d).toNat = some d := by
  interval_cases d <;> rfl

/-! ## Socket receive primitives -/

/-- Models `socket.recv(1)`: the next byte of the stream, or `none` when
nothing arrives before the timeout (`socket.timeout`). -/
def pyRecv1 : List Nat → Option (Nat × List Nat)
  | [] => none
  | b :: rest => some (b, rest)

/-- Models `socket.recv(k)`: up to `k` bytes (all buffered bytes when fewer
than `k` are available), immediately empty for `k = 0`, and `none` when
`k > 0` and nothing arrives before the timeout. -/
def pyRecv (k : Nat) (st : List Nat) : Option (List Nat × List Nat) :=
  if k = 0 then some ([], st)
  else if st = [] then none
  else some (st.take k, st.drop k)

/-- Net effect of the payload loop at lines 300-307: repeated
`socket.recv_into` until exactly `k` bytes have been read; times out when the
stream runs dry first (and no partial result is ever returned). -/
def recvExact (k : Nat) (st : List Nat) : Option (List Nat × List Nat) :=
  if k ≤ st.length then some (st.take k, st.drop k) else none

/-! ## Binary block codec -/

/-- Element byte width selected by the `datatype` argument (lines 252-274):
the if/elif chain mapping struct-module format characters to NumPy dtypes;
any other character raises `BinblockError`. -/
def dtypeWidth (datatype : Char) : Option Nat :=
  if datatype = 'b' then some 1
  else if datatype = 'B' then some 1
  else if datatype = 'h' then some 2
  else if datatype = 'H' then some 2
  else if datatype = 'i' ∨ datatype = 'l' then some 4
  else if datatype = 'I' ∨ datatype = 'L' then some 4
  else if datatype = 'q' then some 8
  else if datatype = 'Q' then some 8
  else if datatype = 'f' then some 4
  else if datatype = 'd' then some 8
  else none

/-- Body of `query_binary_values` from line 289 onward, after the leading
`#` byte has been handled: read one byte and parse it as a hexadecimal digit
(`int(recv(1), 16)`), read that many bytes and parse them as a decimal byte
count (`int(recv(headerLength))`), read the payload, demand a newline
terminator, optionally auto-run `err_check`, and reinterpret the raw bytes
as elements of the selected width (`np.frombuffer`, which raises
`ValueError` when the byte count is not a multiple of the element width). -/
def readBlock (width : Nat) (errCheck globalErrCheck : Bool) (s : ConnState) :
    Except PyErr (List Nat) × ConnState :=
  match pyRecv1 s.stream with
  | none => (Except.error PyErr.sockTimeout, s)
  | some (hb, st1) =>
    match hexDigitVal hb with
    | none => (Except.error PyErr.valueError, { s with stream := st1 })
    | some headerLength =>
      match pyRecv headerLength st1 with
      | none => (Except.error PyErr.sockTimeout, { s with stream := st1 })
      | some (cnt, st2) =>
        match parseDec cnt with
        | none => (Except.error PyErr.valueError, { s with stream := st2 })
        | some numBytes =>
          match recvExact numBytes st2 with
          | none => (Except.error PyErr.sockTimeout, { s with stream := [] })
          | some (rawData, st3) =>
            match pyRecv1 st3 with
            | none => (Except.error PyErr.sockTimeout, { s with stream := st3 })
            | some (term, st4) =>
              if term ≠ 10 then
                (Except.error (PyErr.binblockError "Data not terminated correctly."),
                  { s with stream := st4 })
              else
                let s4 : ConnState := { s with stream := st4 }
                if errCheck && globalErrCheck then
                  match err_check s4 with
                  | (Except.ok _, s5) =>
                      if numBytes % width = 0 then (Except.ok rawData, s5)
                      else (Except.error PyErr.valueError, s5)
                  | (Except.error e, s5) => (Except.error e, s5)
                else
                  if numBytes % width = 0 then (Except.ok rawData, s4)
                  else (Except.error PyErr.valueError, s4)

/-- `SocketInstrument.query_binary_values` (lines 226-327).  The datatype is
decoded first; the command is then written; the socket timeout is lowered to
1 second for the leading `#` byte and restored by the `finally` clause on
every path out of the `try` block.  When the first byte does not arrive in
time (`firstByteTimesOut`, or an exhausted stream), the `except` clause runs
`err_check`; if that returns normally, execution falls through to the header
parse on whatever bytes arrive next. -/
def query_binary_values (cmd : String) (datatype : Char)
    (errCheck globalErrCheck : Bool) (normalTimeout : Nat)
    (firstByteTimesOut : Bool) (s : ConnState) :
    Except PyErr (List Nat) × ConnState :=
  match dtypeWidth datatype with
  | none => (Except.error (PyErr.binblockError "Invalid data type selected."), s)
  | some width =>
    let s1 : ConnState := { s with trace := s.trace ++ [Effect.writeCmd cmd] }
    let s2 : ConnState := { s1 with timeout := 1 }
    match (if firstByteTimesOut then none else pyRecv1 s2.stream) with
    | none =>
        match err_check s2 with
        | (Except.ok _, s3) =>
            readBlock width errCheck globalErrCheck { s3 with timeout := normalTimeout }
        | (Except.error e, s3) =>
            (Except.error e, { s3 with timeout := normalTimeout })
    | some (b, st) =>
        if b ≠ 35 then
          (Except.error (PyErr.binblockError "Data in buffer is not in binblock format."),
            { s2 with stream := st, timeout := normalTimeout })
        else
          readBlock width errCheck globalErrCheck
            { s2 with stream := st, timeout := normalTimeout }

/-- `SocketInstrument.binblock_header` (lines 330-343): reject payloads of
`10^9` bytes or more (`numBytes >= 1e9`; exact for integers in this range),
otherwise produce `#` + decimal digit-count of the byte count + the byte
count in decimal.  The source message interpolates the requested length; the
constant prefix of the message is kept here. -/
def binblock_header (numBytes : Nat) : Except PyErr (List Char) :=
  if 10 ^ 9 ≤ numBytes then
    Except.error (PyErr.binblockError "Maximum binblockwrite length is 1 GB.")
  else
    Except.ok ('#' :: pyStrNat (pyStrNat numBytes).length ++ pyStrNat numBytes)

/-- Frame transmitted on the wire by `write_binary_values` after the command
text (lines 374-380): header bytes, payload bytes, one newline byte. -/
def binblock_frame (data : List Nat) : Except PyErr (List Nat) :=
  match binblock_header data.length with
  | Except.error e => Except.error e
  | Except.ok header => Except.ok (header.map Char.toNat ++ data ++ [10])

/-- The same frame, spelled out unconditionally (equal to the `Except.ok`
value of `binblock_frame` for payloads under the ceiling). -/
def binblock_frame_bytes (data : List Nat) : List Nat :=
  ('#' :: pyStrNat (pyStrNat data.length).length ++ pyStrNat data.length).map Char.toNat
    ++ data ++ [10]

/-! ## Transport operations -/

/-- `SocketInstrument.write` (lines 117-139): send the newline-terminated
command (the `isinstance(cmd, str)` guard is discharged by the type of
`cmd`), then auto-run `err_check` only when both the per-call flag and the
connection-wide flag are set. -/
def write (cmd : String) (errCheck globalErrCheck : Bool) (s : ConnState) :
    Except PyErr Unit × ConnState :=
  let s1 : ConnState := { s with trace := s.trace ++ [Effect.writeCmd cmd] }
  if errCheck && globalErrCheck then
    match err_check s1 with
    | (Except.ok _, s2) => (Except.ok (), s2)
    | (Except.error e, s2) => (Except.error e, s2)
  else (Except.ok (), s1)

/-- `SocketInstrument.query` (lines 170-196): demand a `?` in the command,
write it, read the response (`readTimesOut` models the `socket.timeout`
branch, whose handler runs `err_check` and then falls through to an
`UnboundLocalError` on `return result`), then auto-run `err_check` only when
both flags are set. -/
def query (cmd : String) (errCheck globalErrCheck : Bool) (readTimesOut : Bool)
    (resp : List Char) (s : ConnState) : Except PyErr (List Char) × ConnState :=
  if '?' ∉ cmd.data then
    (Except.error (PyErr.sockInstMsg "Query must include \"?\""), s)
  else
    let s1 : ConnState := { s with trace := s.trace ++ [Effect.writeCmd cmd] }
    if readTimesOut then
      match err_check s1 with
      | (Except.ok _, s2) =>
          if errCheck && globalErrCheck then
            match err_check s2 with
            | (Except.ok _, s3) => (Except.error PyErr.unboundLocal, s3)
            | (Except.error e, s3) => (Except.error e, s3)
          else (Except.error PyErr.unboundLocal, s2)
      | (Except.error e, s2) => (Except.error e, s2)
    else
      if errCheck && globalErrCheck then
        match err_check s1 with
        | (Except.ok _, s2) => (Except.ok resp, s2)
        | (Except.error e, s2) => (Except.error e, s2)
      else (Except.ok resp, s1)

/-- `SocketInstrument.write_binary_values` (lines 352-389): build the header
(propagating its `BinblockError` for oversized payloads), send command,
header, payload and newline, then auto-run `err_check` only when both flags
are set. -/
def write_binary_values (cmd : String) (data : List Nat)
    (errCheck globalErrCheck : Bool) (s : ConnState) : Except PyErr Unit × ConnState :=
  match binblock_header data.length with
  | Except.error e => (Except.error e, s)
  | Except.ok _header =>
      let s1 : ConnState := { s with trace := s.trace ++ [Effect.writeCmd cmd] }
      if errCheck && globalErrCheck then
        match err_check s1 with
        | (Except.ok _, s2) => (Except.ok (), s2)
        | (Except.error e, s2) => (Except.error e, s2)
      else (Except.ok (), s1)

/-! ## Decoding a well-formed frame -/

/-- Decoding behaviour of the post-`#` reader on a well-formed frame for
8-bit elements: the payload is recovered exactly, the stream is fully
consumed, and `err_check` runs afterwards exactly when both flags are set. -/
theorem readBlock_frame (ec gec : Bool) (payload : List Nat) (s : ConnState)
    (hlen : payload.length < 10 ^ 9)
    (hs : s.stream = (pyStrNat (pyStrNat payload.length).length).map Char.toNat ++
      ((pyStrNat payload.length).map Char.toNat ++ (payload ++ [10]))) :
    readBlock 1 ec gec s =
    (if ec && gec then
        match err_check { s with stream := [] } with
        | (Except.ok _, s5) => (Except.ok payload, s5)
        | (Except.error e, s5) => (Except.error e, s5)
      else (Except.ok payload, { s with stream := [] })) := by
  have hL1 : 1 ≤ (pyStrNat payload.length).length := pyStrNat_length_pos _
  have hL9 : (pyStrNat payload.length).length ≤ 9 := pyStrNat_length_le_nine hlen
  have hA : (pyStrNat (pyStrNat payload.length).length).map Char.toNat =
      [(Nat.digitChar (pyStrNat payload.length).length).toNat] := by
    rw [pyStrNat_single hL1 hL9]; rfl
  have hBlen : ((pyStrNat payload.length).map Char.toNat).length =
      (pyStrNat payload.length).length := List.length_map _ _
  have hBne : (pyStrNat payload.length).map Char.toNat ++ (payload ++ [10]) ≠ [] := by
    simp
  have hd : hexDigitVal (Nat.digitChar (pyStrNat payload.length).length).toNat =
      some (pyStrNat payload.length).length := hexDigitVal_digitChar hL1 hL9
  have hpyRecvB : pyRecv (pyStrNat payload.length).length
      ((pyStrNat payload.length).map Char.toNat ++ (payload ++ [10])) =
      some ((pyStrNat payload.length).map Char.toNat, payload ++ [10]) := by
    rw [pyRecv, if_neg (by omega), if_neg hBne,
      List.take_left' hBlen, List.drop_left' hBlen]
  have hparse : parseDec ((pyStrNat payload.length).map Char.toNat) =
      some payload.length := parseDec_pyStrNat _
  have hrecvP : recvExact payload.length (payload ++ [10]) = some (payload, [10]) := by
    rw [recvExact, if_pos (by simp), List.take_left' rfl, List.drop_left' rfl]
  simp only [readBlock, hs, hA, List.singleton_append, pyRecv1, hd, hpyRecvB, hparse,
    hrecvP, Nat.mod_one, ne_eq, not_true_eq_false, if_false, ite_true, if_true,
    not_false_eq_true, reduceIte]

/-- C1: Binary block round-trip law.  For every byte payload of length `N`
with `0 < N < 10^9`, framing it the way `write_binary_values` transmits it
(`binblock_header`, payload, one newline) and decoding the frame with
`query_binary_values` requesting 8-bit elements yields exactly the original
payload (hence exactly `N` one-byte elements, unchanged). -/
theorem binblock_roundtrip (cmd : String) (data frame : List Nat)
    (er : List (List Char)) (t0 nt : Nat) (tr : List Effect) (gec : Bool)
    (h1 : 0 < data.length) (h2 : data.length < 10 ^ 9)
    (hf : binblock_frame data = Except.ok frame) :
    (query_binary_values cmd 'b' false gec nt false
      ⟨frame, er, t0, tr⟩).1 = Except.ok data := by
  have hhead : binblock_header data.length = Except.ok
      ('#' :: pyStrNat (pyStrNat data.length).length ++ pyStrNat data.length) := by
    rw [binblock_header, if_neg (by omega)]
  rw [binblock_frame, hhead] at hf
  injection hf with hf
  have hframe : frame = 35 ::
      ((pyStrNat (pyStrNat data.length).length).map Char.toNat ++
        ((pyStrNat data.length).map Char.toNat ++ (data ++ [10]))) := by
    rw [← hf]
    simp [List.map_cons, List.map_append, List.cons_append, List.append_assoc]
  have hwidth : dtypeWidth 'b' = some 1 := rfl
  simp only [query_binary_values, hwidth, hframe, if_false, Bool.false_eq_true, pyRecv1,
    ne_eq, not_true_eq_false, reduceIte]
  rw [readBlock_frame false gec data _ h2 (by rfl)]
  simp

/-! ## State invariants of the embedded operations -/

theorem err_check_timeout_eq (s : ConnState) : (err_check s).2.timeout = s.timeout := by
  cases h : errCheckDrain s.errResponses with
  | none => simp [err_check, h]
  | some p =>
      obtain ⟨errs, rem⟩ := p
      by_cases he : errs.isEmpty <;> simp [err_check, h, he]

theorem err_check_trace (s : ConnState) :
    (err_check s).2.trace = s.trace ++ [Effect.errCheckRun] := by
  cases h : errCheckDrain s.errResponses with
  | none => simp [err_check, h]
  | some p =>
      obtain ⟨errs, rem⟩ := p
      by_cases he : errs.isEmpty <;> simp [err_check, h, he]

theorem readBlock_timeout_eq (w : Nat) (ec gec : Bool) (s : ConnState) :
    (readBlock w ec gec s).2.timeout = s.timeout := by
  unfold readBlock
  cases h1 : pyRecv1 s.stream with
  | none => rfl
  | some p1 =>
    obtain ⟨hb, st1⟩ := p1
    dsimp only
    cases h2 : hexDigitVal hb with
    | none => rfl
    | some headerLength =>
      dsimp only
      cases h3 : pyRecv headerLength st1 with
      | none => rfl
      | some p2 =>
        obtain ⟨cnt, st2⟩ := p2
        dsimp only
        cases h4 : parseDec cnt with
        | none => rfl
        | some numBytes =>
          dsimp only
          cases h5 : recvExact numBytes st2 with
          | none => rfl
          | some p3 =>
            obtain ⟨rawData, st3⟩ := p3
            dsimp only
            cases h6 : pyRecv1 st3 with
            | none => rfl
            | some p4 =>
              obtain ⟨term, st4⟩ := p4
              dsimp only
              by_cases h7 : term ≠ 10
              · simp [h7]
              · simp only [h7, if_false, reduceIte]
                by_cases h8 : (ec && gec) = true
                · simp only [h8, if_true, reduceIte]
                  rcases h9 : err_check { s with stream := st4 } with ⟨res, s5⟩
                  have ht := err_check_timeout_eq { s with stream := st4 }
                  rw [h9] at ht
                  cases res <;> by_cases h10 : numBytes % w = 0 <;> simp_all
                · simp only [h8, if_false, reduceIte]
                  by_cases h10 : numBytes % w = 0 <;> simp [h10]

/-- Witness for `binblock_roundtrip` at the concrete payload `[5, 6]`. -/
theorem binblock_roundtrip_witness :
    0 < ([5, 6] : List Nat).length ∧ ([5, 6] : List Nat).length < 10 ^ 9 ∧
    binblock_frame [5, 6] = Except.ok [35, 49, 50, 5, 6, 10] ∧
    (query_binary_values "data?" 'b' false false 10 false
      ⟨[35, 49, 50, 5, 6, 10], [], 10, []⟩).1 = Except.ok [5, 6] :=
  ⟨by decide, by decide, by rfl,
    binblock_roundtrip "data?" [5, 6] [35, 49, 50, 5, 6, 10] [] 10 10 [] false
      (by decide) (by decide) (by rfl)⟩

/-- C5: Timeout restore invariant.  Whatever `query_binary_values` does —
return a decoded array, or fail at the `#` byte, the header-byte timeout,
a malformed length, the payload read, the terminator, or the automatic
error check — the socket timeout on exit equals the configured normal
timeout, provided it did on entry (the `finally` clause of lines 286-287
restores it on every exit path of the `try` block, and no later step
changes it). -/
theorem timeout_restored (cmd : String) (datatype : Char) (ec gec : Bool)
    (nt : Nat) (fb : Bool) (s : ConnState) (h : s.timeout = nt) :
    (query_binary_values cmd datatype ec gec nt fb s).2.timeout = nt := by
  unfold query_binary_values
  cases hw : dtypeWidth datatype with
  | none => simpa using h
  | some width =>
    dsimp only
    cases hrecv : (if fb then none else pyRecv1 s.stream) with
    | none =>
        dsimp only
        rcases h2 : (err_check
            { s with trace := s.trace ++ [Effect.writeCmd cmd], timeout := 1 }) with
          ⟨res, s3⟩
        cases res with
        | ok _ =>
            dsimp only
            rw [readBlock_timeout_eq]
        | error e => rfl
    | some p =>
        obtain ⟨b, st⟩ := p
        dsimp only
        by_cases hb : b ≠ 35
        · simp [hb]
        · simp only [hb, if_false, reduceIte]
          rw [readBlock_timeout_eq]

/-- Witness for `timeout_restored` on a concrete failing run (header-byte
timeout with an empty stream and an empty error channel). -/
theorem timeout_restored_witness :
    (⟨[], [], 10, []⟩ : ConnState).timeout = 10 ∧
    (query_binary_values "curve?" 'b' true true 10 true
      ⟨[], [], 10, []⟩).2.timeout = 10 :=
  ⟨rfl, timeout_restored "curve?" 'b' true true 10 true ⟨[], [], 10, []⟩ rfl⟩

/-! ## Error-queue drain lemmas -/

/-- Drain behaviour on a stream whose first sentinel-bearing response is `r`:
the loop accumulates the normalized forms of everything before `r`, in order,
stops at `r` without appending it, and leaves the rest of the channel
untouched. -/
theorem errCheckDrain_spec (pre : List (List Char)) (r : List Char)
    (rest : List (List Char))
    (hpre : ∀ p ∈ pre, ¬ (sentinel <:+: normalize p))
    (hr : sentinel <:+: normalize r) :
    errCheckDrain (pre ++ r :: rest) = some (pre.map normalize, rest) := by
  induction pre with
  | nil => simp [errCheckDrain, hr]
  | cons p ps ih =>
      have hp := hpre p (List.mem_cons_self _ _)
      have ihh := ih fun q hq => hpre q (List.mem_cons_of_mem _ hq)
      simp [errCheckDrain, hp, ihh]

/-- C2 (amended): error-queue draining.  For a finite response sequence made
of non-sentinel responses followed by one sentinel response, `err_check`
returns normally exactly when no non-sentinel response precedes the
sentinel; otherwise it raises `SockInstError` carrying the normalized forms
(whitespace-stripped, all `+`/`-` characters removed) of the non-sentinel
responses, in the order received. -/
theorem err_check_drain_order (pre : List (List Char)) (r : List Char)
    (st : List Nat) (t0 : Nat) (tr : List Effect)
    (hpre : ∀ p ∈ pre, ¬ (sentinel <:+: normalize p))
    (hr : sentinel <:+: normalize r) :
    (pre = [] → (err_check ⟨st, pre ++ [r], t0, tr⟩).1 = Except.ok ()) ∧
    (pre ≠ [] → (err_check ⟨st, pre ++ [r], t0, tr⟩).1 =
      Except.error (PyErr.sockInstError (pre.map normalize))) := by
  have hd := errCheckDrain_spec pre r [] hpre hr
  constructor
  · intro h
    subst h
    simp only [List.nil_append] at hd
    simp [err_check, hd]
  · intro h
    cases pre with
    | nil => exact absurd rfl h
    | cons q qs =>
        rw [List.cons_append] at hd
        simp [err_check, hd]

/-- Counterexample to C2 as literally stated: with responses
`113,"Undefined header"`, `-222,"Data out of range"`, then the sentinel, the
raised list is NOT `["113,\"Undefined header\"", "-222,\"Data out of range\""]`:
the code strips the sign, so the second carried entry is
`222,"Data out of range"`. -/
theorem err_check_sign_list_counterexample :
    (err_check ⟨[], ["113,\"Undefined header\"".data,
        "-222,\"Data out of range\"".data, "0,\"No error\"".data], 10, []⟩).1 =
      Except.error (PyErr.sockInstError
        ["113,\"Undefined header\"".data, "222,\"Data out of range\"".data]) ∧
    ("222,\"Data out of range\"".data : List Char) ≠
      "-222,\"Data out of range\"".data ∧
    (err_check ⟨[], ["113,\"Undefined header\"".data,
        "-222,\"Data out of range\"".data, "0,\"No error\"".data], 10, []⟩).1 ≠
      Except.error (PyErr.sockInstError
        ["113,\"Undefined header\"".data, "-222,\"Data out of range\"".data]) :=
  ⟨by rfl, by decide, by
    intro hcontra
    rw [show (err_check ⟨[], ["113,\"Undefined header\"".data,
        "-222,\"Data out of range\"".data, "0,\"No error\"".data], 10, []⟩).1 =
      Except.error (PyErr.sockInstError
        ["113,\"Undefined header\"".data, "222,\"Data out of range\"".data])
      from rfl] at hcontra
    injection hcontra with hcontra
    injection hcontra with hcontra
    exact absurd hcontra (by decide)⟩

/-- Witness for `err_check_drain_order` on the concrete two-error sequence
of the spec's example. -/
theorem err_check_drain_order_witness :
    (err_check ⟨[], ["113,\"Undefined header\"".data,
        "-222,\"Data out of range\"".data, "0,\"No error\"".data], 10, []⟩).1 =
      Except.error (PyErr.sockInstError
        (["113,\"Undefined header\"".data,
          "-222,\"Data out of range\"".data].map normalize)) :=
  (err_check_drain_order
    ["113,\"Undefined header\"".data, "-222,\"Data out of range\"".data]
    "0,\"No error\"".data [] 10 [] (by decide) (by decide)).2 (by decide)

/-- Every character surviving `normalize` is neither `+` nor `-`: the two
`replace` calls delete every occurrence, wherever it appears. -/
theorem normalize_sign_free (r : List Char) :
    ∀ c ∈ normalize r, c ≠ '+' ∧ c ≠ '-' := by
  intro c hc
  rw [normalize, pyReplaceEmpty] at hc
  obtain ⟨hc2, hminus⟩ := List.mem_filter.mp hc
  rw [pyReplaceEmpty] at hc2
  obtain ⟨_, hplus⟩ := List.mem_filter.mp hc2
  exact ⟨by simpa using hplus, by simpa using hminus⟩

/-- C8: Global sign stripping in `err_check`.  Whenever the drain loop
terminates with accumulator `errs`, the accumulated entries are exactly the
normalized (whitespace-stripped, sign-stripped) forms of the responses
received before the sentinel, in order — so every entry carried by a raised
`SockInstError` contains no `+` and no `-` character, wherever those
occurred in the raw response. -/
theorem err_entries_sign_free (responses errs rem : List (List Char))
    (h : errCheckDrain responses = some (errs, rem)) :
    errs = (responses.take errs.length).map normalize ∧
    ∀ e ∈ errs, ∀ c ∈ e, c ≠ '+' ∧ c ≠ '-' := by
  induction responses generalizing errs rem with
  | nil => simp [errCheckDrain] at h
  | cons r rest ih =>
      simp only [errCheckDrain] at h
      by_cases hs : sentinel <:+: normalize r
      · rw [if_pos hs] at h
        injection h with h
        injection h with h1 h2
        subst h1
        simp
      · rw [if_neg hs] at h
        cases hrec : errCheckDrain rest with
        | none => rw [hrec] at h; exact absurd h (by simp)
        | some p =>
            obtain ⟨errs', rem'⟩ := p
            rw [hrec] at h
            injection h with h
            injection h with h1 h2
            obtain ⟨ih1, ih2⟩ := ih errs' rem' hrec
            subst h1
            constructor
            · simp only [List.length_cons, List.take_succ_cons, List.map_cons]
              rw [← ih1]
            · intro e he
              rcases List.mem_cons.mp he with he | he
              · subst he
                exact normalize_sign_free r
              · exact ih2 e he

/-- Witness for `err_entries_sign_free` on a concrete drain containing both
sign characters in non-leading positions. -/
theorem err_entries_sign_free_witness :
    (["1, \"a+b\"".data, "-2,\"c-d\"".data].map normalize =
      (((["1, \"a+b\"".data, "-2,\"c-d\"".data, "0,\"No error\"".data] :
        List (List Char)).take
          (["1, \"a+b\"".data, "-2,\"c-d\"".data].map normalize).length).map
            normalize)) ∧
    ∀ e ∈ (["1, \"a+b\"".data, "-2,\"c-d\"".data].map normalize),
      ∀ c ∈ e, c ≠ '+' ∧ c ≠ '-' := by
  have h := err_entries_sign_free
    ["1, \"a+b\"".data, "-2,\"c-d\"".data, "0,\"No error\"".data]
    (["1, \"a+b\"".data, "-2,\"c-d\"".data].map normalize) [] (by rfl)
  exact h

/-- Substring survival: removing characters that do not occur in `t` cannot
destroy an occurrence of `t`. -/
theorem substring_filter_preserved {t l : List Char} (p : Char → Bool)
    (ht : ∀ c ∈ t, p c = true) (h : t <:+: l) : t <:+: List.filter p l := by
  obtain ⟨u, v, huv⟩ := h
  refine ⟨u.filter p, v.filter p, ?_⟩
  rw [← huv, List.filter_append, List.filter_append, List.filter_eq_self.mpr ht]

/-- The sentinel text contains no sign characters, so it survives the two
sign-removing `replace` calls. -/
theorem sentinel_survives_normalize {r : List Char} (h : sentinel <:+: stripWS r) :
    sentinel <:+: normalize r := by
  rw [normalize, pyReplaceEmpty, pyReplaceEmpty]
  exact substring_filter_preserved _ (by decide)
    (substring_filter_preserved _ (by decide) h)

/-- C9: Substring sentinel matching.  Any response whose whitespace-stripped
text contains `0,"No error` anywhere is treated as the no-error sentinel:
the drain loop stops there, the response is not appended to the error list,
and anything queued after it is never queried — regardless of surrounding
text in the response. -/
theorem sentinel_substring_terminates (pre : List (List Char)) (r : List Char)
    (rest : List (List Char))
    (hpre : ∀ p ∈ pre, ¬ (sentinel <:+: normalize p))
    (hr : sentinel <:+: stripWS r) :
    errCheckDrain (pre ++ r :: rest) = some (pre.map normalize, rest) :=
  errCheckDrain_spec pre r rest hpre (sentinel_survives_normalize hr)

/-- Witness for `sentinel_substring_terminates`: a sentinel with surrounding
text ends the drain after one real error, leaving the queue's tail alone. -/
theorem sentinel_substring_terminates_witness :
    errCheckDrain (["7,\"late\"".data] ++
        "  extra 0,\"No error text\" trailing  ".data :: ["9,\"never\"".data]) =
      some ((["7,\"late\"".data] : List (List Char)).map normalize,
        ["9,\"never\"".data]) :=
  sentinel_substring_terminates ["7,\"late\"".data]
    "  extra 0,\"No error text\" trailing  ".data ["9,\"never\"".data]
    (by decide) (by decide)

/-! ## Auto-check policy -/

theorem binblock_frame_bytes_cons (data : List Nat) :
    binblock_frame_bytes data = 35 ::
      ((pyStrNat (pyStrNat data.length).length).map Char.toNat ++
        ((pyStrNat data.length).map Char.toNat ++ (data ++ [10]))) := by
  rw [binblock_frame_bytes]
  simp only [List.map_cons, List.map_append, List.cons_append, List.append_assoc]
  rfl

/-- Full behaviour of `query_binary_values` on a well-formed 8-bit frame:
the payload is decoded, and `err_check` runs afterwards exactly when both
flags are set. -/
theorem qbv_frame (cmd : String) (ec gec : Bool) (payload : List Nat)
    (er : List (List Char)) (t0 nt : Nat) (tr : List Effect)
    (hp : payload.length < 10 ^ 9) :
    query_binary_values cmd 'b' ec gec nt false
      ⟨binblock_frame_bytes payload, er, t0, tr⟩ =
    (if ec && gec then
        match err_check ⟨[], er, nt, tr ++ [Effect.writeCmd cmd]⟩ with
        | (Except.ok _, s5) => (Except.ok payload, s5)
        | (Except.error e, s5) => (Except.error e, s5)
      else (Except.ok payload, ⟨[], er, nt, tr ++ [Effect.writeCmd cmd]⟩)) := by
  have hframe := binblock_frame_bytes_cons payload
  have hwdt : dtypeWidth 'b' = some 1 := rfl
  simp only [query_binary_values, hwdt, hframe, pyRecv1, Bool.false_eq_true,
    if_false, reduceIte, ne_eq, not_true_eq_false]
  rw [readBlock_frame ec gec payload _ hp (by rfl)]

/-- C3: Auto-check policy is a logical AND.  For `write`, `query`,
`query_binary_values` and `write_binary_values` completing their operation
(query read succeeds; the framed read decodes a well-formed frame; the
framed write's payload is under the ceiling), the automatic `err_check`
runs after the operation exactly when BOTH the connection-wide flag and the
per-call flag are enabled; enabling only one of the two never triggers it. -/
theorem auto_errcheck_and_policy
    (wcmd qcmd bcmd wbcmd : String) (qresp : List Char)
    (payload wdata : List Nat) (ec gec : Bool)
    (st : List Nat) (er : List (List Char)) (t0 nt : Nat)
    (hq : '?' ∈ qcmd.data)
    (hp : payload.length < 10 ^ 9)
    (hw : wdata.length < 10 ^ 9) :
    (Effect.errCheckRun ∈ (write wcmd ec gec ⟨st, er, t0, []⟩).2.trace ↔
      (ec && gec) = true) ∧
    (Effect.errCheckRun ∈
        (query qcmd ec gec false qresp ⟨st, er, t0, []⟩).2.trace ↔
      (ec && gec) = true) ∧
    (Effect.errCheckRun ∈
        (query_binary_values bcmd 'b' ec gec nt false
          ⟨binblock_frame_bytes payload, er, t0, []⟩).2.trace ↔
      (ec && gec) = true) ∧
    (Effect.errCheckRun ∈
        (write_binary_values wbcmd wdata ec gec ⟨st, er, t0, []⟩).2.trace ↔
      (ec && gec) = true) := by
  refine ⟨?_, ?_, ?_, ?_⟩
  · cases hflag : ec && gec
    · simp [write, hflag]
    · rcases h2 : (err_check ⟨st, er, t0, [Effect.writeCmd wcmd]⟩) with ⟨res, s2⟩
      have htr := err_check_trace ⟨st, er, t0, [Effect.writeCmd wcmd]⟩
      rw [h2] at htr
      cases res <;> simp at htr <;> simp [write, hflag, h2, htr]
  · cases hflag : ec && gec
    · simp [query, hq, hflag]
    · rcases h2 : (err_check ⟨st, er, t0, [Effect.writeCmd qcmd]⟩) with ⟨res, s2⟩
      have htr := err_check_trace ⟨st, er, t0, [Effect.writeCmd qcmd]⟩
      rw [h2] at htr
      cases res <;> simp at htr <;> simp [query, hq, hflag, h2, htr]
  · rw [qbv_frame bcmd ec gec payload er t0 nt [] hp]
    cases hflag : ec && gec
    · simp [hflag]
    · rcases h2 : (err_check ⟨[], er, nt, [] ++ [Effect.writeCmd bcmd]⟩) with ⟨res, s2⟩
      have htr := err_check_trace ⟨[], er, nt, [] ++ [Effect.writeCmd bcmd]⟩
      rw [h2] at htr
      cases res <;> simp at htr <;> simp [hflag, h2, htr]
  · have hhead : binblock_header wdata.length = Except.ok
        ('#' :: pyStrNat (pyStrNat wdata.length).length ++ pyStrNat wdata.length) := by
      rw [binblock_header, if_neg (by omega)]
    cases hflag : ec && gec
    · simp [write_binary_values, hhead, hflag]
    · rcases h2 : (err_check ⟨st, er, t0, [Effect.writeCmd wbcmd]⟩) with ⟨res, s2⟩
      have htr := err_check_trace ⟨st, er, t0, [Effect.writeCmd wbcmd]⟩
      rw [h2] at htr
      cases res <;> simp at htr <;> simp [write_binary_values, hhead, hflag, h2, htr]

/-- Witness for `auto_errcheck_and_policy` with both flags enabled on
concrete commands and payloads. -/
theorem auto_errcheck_and_policy_witness :
    ('?' ∈ "*idn?".data ∧ ([7] : List Nat).length < 10 ^ 9 ∧
      ([8] : List Nat).length < 10 ^ 9) ∧
    ((Effect.errCheckRun ∈
        (write "*rst" true true ⟨[], ["0,\"No error\"".data], 10, []⟩).2.trace ↔
      (true && true) = true) ∧
    (Effect.errCheckRun ∈
        (query "*idn?" true true false "id".data
          ⟨[], ["0,\"No error\"".data], 10, []⟩).2.trace ↔
      (true && true) = true) ∧
    (Effect.errCheckRun ∈
        (query_binary_values "curve?" 'b' true true 10 false
          ⟨binblock_frame_bytes [7], ["0,\"No error\"".data], 10, []⟩).2.trace ↔
      (true && true) = true) ∧
    (Effect.errCheckRun ∈
        (write_binary_values "trace:data" [8] true true
          ⟨[], ["0,\"No error\"".data], 10, []⟩).2.trace ↔
      (true && true) = true)) :=
  ⟨⟨by decide, by decide, by decide⟩,
    auto_errcheck_and_policy "*rst" "*idn?" "curve?" "trace:data" "id".data
      [7] [8] true true [] ["0,\"No error\"".data] 10 10
      (by decide) (by decide) (by decide)⟩

/-! ## Header-timeout path, digit-count validation, size ceiling, datatype guard -/

theorem err_check_fst_error (s : ConnState) (errs rem : List (List Char))
    (hd : errCheckDrain s.errResponses = some (errs, rem)) (hne : errs ≠ []) :
    (err_check s).1 = Except.error (PyErr.sockInstError errs) := by
  have hie : errs.isEmpty = false := by
    cases errs with
    | nil => exact absurd rfl hne
    | cons a l => rfl
  simp [err_check, hd, hie]

/-- Counterexample to C4 as literally stated: with the `#` byte timing out,
an empty instrument error queue and late-arriving bytes `1`, `5`, five
payload bytes and a newline, `query_binary_values` invokes `err_check`,
which finds nothing, and then parses the late bytes as a headerless frame
and RETURNS a decoded value instead of surfacing a failure. -/
theorem header_timeout_decodes_counterexample :
    (query_binary_values "curve?" 'b' false false 10 true
      ⟨[49, 53, 65, 66, 67, 68, 69, 10], ["0,\"No error\"".data], 10, []⟩).1 =
      Except.ok [65, 66, 67, 68, 69] ∧
    Effect.errCheckRun ∈ (query_binary_values "curve?" 'b' false false 10 true
      ⟨[49, 53, 65, 66, 67, 68, 69, 10], ["0,\"No error\"".data], 10, []⟩).2.trace :=
  ⟨by rfl, by decide⟩

/-- C4 (amended): header-timeout path.  When the first byte of a framed read
does not arrive within the short bounded timeout, `query_binary_values`
invokes the Error Checker; whenever the instrument's error queue is
non-empty, the enriched failure (a `SockInstError` carrying the drained
errors) surfaces to the caller and no decoded value is returned.  (When the
queue is empty the code falls through and resumes parsing instead of
failing — see the counterexample.) -/
theorem header_timeout_errcheck (cmd : String) (datatype : Char) (w : Nat)
    (ec gec : Bool) (nt : Nat) (s : ConnState)
    (errs rem : List (List Char))
    (hw : dtypeWidth datatype = some w)
    (hd : errCheckDrain s.errResponses = some (errs, rem))
    (hne : errs ≠ []) :
    (query_binary_values cmd datatype ec gec nt true s).1 =
      Except.error (PyErr.sockInstError errs) ∧
    Effect.errCheckRun ∈ (query_binary_values cmd datatype ec gec nt true s).2.trace := by
  simp only [query_binary_values, hw]
  rcases h2 : (err_check
      { s with trace := s.trace ++ [Effect.writeCmd cmd], timeout := 1 }) with ⟨res, s3⟩
  have hfst := err_check_fst_error
    { s with trace := s.trace ++ [Effect.writeCmd cmd], timeout := 1 } errs rem hd hne
  rw [h2] at hfst
  simp only at hfst
  subst hfst
  have htr := err_check_trace
    { s with trace := s.trace ++ [Effect.writeCmd cmd], timeout := 1 }
  rw [h2] at htr
  simp only at htr
  simp [htr]

/-- Witness for `header_timeout_errcheck`: a timed-out header read with one
queued instrument error raises that error. -/
theorem header_timeout_errcheck_witness :
    dtypeWidth 'b' = some 1 ∧
    errCheckDrain ((⟨[], ["-100,\"bad\"".data, "0,\"No error\"".data], 10, []⟩ :
        ConnState).errResponses) = some (["100,\"bad\"".data], []) ∧
    (query_binary_values "curve?" 'b' false false 10 true
      ⟨[], ["-100,\"bad\"".data, "0,\"No error\"".data], 10, []⟩).1 =
      Except.error (PyErr.sockInstError ["100,\"bad\"".data]) :=
  ⟨rfl, by rfl,
    (header_timeout_errcheck "curve?" 'b' 1 false false 10
      ⟨[], ["-100,\"bad\"".data, "0,\"No error\"".data], 10, []⟩
      ["100,\"bad\"".data] [] rfl (by rfl) (by decide)).1⟩

/-- Counterexample to C6 as literally stated: the digit-count byte `a`
(0x61, outside `1`-`9`) is parsed by `int(c, 16)` as 16, not rejected: with
ten following count bytes `0000000005`, five payload bytes and a newline,
the frame is accepted and decoded rather than failing with `BinblockError`. -/
theorem hex_digit_count_accepted_counterexample :
    (query_binary_values "curve?" 'b' false false 10 false
      ⟨[35, 97, 48, 48, 48, 48, 48, 48, 48, 48, 48, 53, 1, 2, 3, 4, 5, 10],
        [], 10, []⟩).1 = Except.ok [1, 2, 3, 4, 5] ∧
    ¬ (49 ≤ (97 : Nat) ∧ (97 : Nat) ≤ 57) :=
  ⟨by rfl, by decide⟩

/-- C6 (amended): invalid digit-count handling.  A digit-count byte that is
not a hexadecimal digit, and likewise the literal `0` (whose zero-length
byte-count field cannot be parsed), make `query_binary_values` fail with a
`ValueError`-style parse error (not `BinblockError`); hexadecimal letter
digit-counts `a`-`f`/`A`-`F`, however, are accepted as counts 10-15. -/
theorem invalid_digit_count_parse_error (cmd : String) (datatype : Char) (w : Nat)
    (ec gec : Bool) (nt : Nat) (d : Nat) (rest : List Nat)
    (er : List (List Char)) (t0 : Nat) (tr : List Effect)
    (hw : dtypeWidth datatype = some w)
    (hd : hexDigitVal d = none ∨ d = 48) :
    (query_binary_values cmd datatype ec gec nt false
      ⟨35 :: d :: rest, er, t0, tr⟩).1 = Except.error PyErr.valueError := by
  rcases hd with hd | hd
  · simp [query_binary_values, hw, pyRecv1, readBlock, hd]
  · subst hd
    simp [query_binary_values, hw, pyRecv1, readBlock, hexDigitVal, pyRecv, parseDec]

/-- Witness for `invalid_digit_count_parse_error` at the literal `0`
digit-count byte. -/
theorem invalid_digit_count_parse_error_witness :
    dtypeWidth 'b' = some 1 ∧
    (query_binary_values "curve?" 'b' false false 10 false
      ⟨[35, 48], [], 10, []⟩).1 = Except.error PyErr.valueError :=
  ⟨rfl, invalid_digit_count_parse_error "curve?" 'b' 1 false false 10 48 [] [] 10 []
    rfl (Or.inr rfl)⟩

/-- C7: Frame-size ceiling.  `binblock_header` fails with `BinblockError`
for every byte count of `10^9` or more; below the ceiling it produces `#`,
then the decimal digit-count of `N` as a single character, then `N` in
decimal (a representation that parses back to `N`). -/
theorem binblock_header_ceiling (n : Nat) :
    (10 ^ 9 ≤ n → binblock_header n =
      Except.error (PyErr.binblockError "Maximum binblockwrite length is 1 GB.")) ∧
    (n < 10 ^ 9 → binblock_header n =
        Except.ok ('#' :: pyStrNat (pyStrNat n).length ++ pyStrNat n) ∧
      parseDec ((pyStrNat n).map Char.toNat) = some n ∧
      (pyStrNat (pyStrNat n).length).length = 1) := by
  constructor
  · intro h
    rw [binblock_header, if_pos h]
  · intro h
    refine ⟨by rw [binblock_header, if_neg (by omega)], parseDec_pyStrNat n, ?_⟩
    rw [pyStrNat_single (pyStrNat_length_pos n) (pyStrNat_length_le_nine h)]
    rfl

/-- Witness for `binblock_header_ceiling` at `10^9` (rejected) and `5`
(accepted, header `#15`). -/
theorem binblock_header_ceiling_witness :
    binblock_header (10 ^ 9) =
      Except.error (PyErr.binblockError "Maximum binblockwrite length is 1 GB.") ∧
    binblock_header 5 = Except.ok ['#', '1', '5'] :=
  ⟨(binblock_header_ceiling (10 ^ 9)).1 (by decide),
    ((binblock_header_ceiling 5).2 (by decide)).1⟩

/-- C10: element-kind validation precedes all I/O.  For every `datatype`
outside the supported set, `query_binary_values` fails with the
`BinblockError` of the datatype dispatch and returns the connection state
completely unchanged: no command is written, nothing is received, the
timeout is untouched. -/
theorem invalid_datatype_no_io (cmd : String) (datatype : Char) (ec gec : Bool)
    (nt : Nat) (fb : Bool) (s : ConnState)
    (h : datatype ∉ (['b', 'B', 'h', 'H', 'i', 'l', 'I', 'L', 'q', 'Q', 'f', 'd'] :
      List Char)) :
    query_binary_values cmd datatype ec gec nt fb s =
      (Except.error (PyErr.binblockError "Invalid data type selected."), s) := by
  have hw : dtypeWidth datatype = none := by
    simp only [List.mem_cons, List.not_mem_nil, or_false, not_or] at h
    obtain ⟨h1, h2, h3, h4, h5, h6, h7, h8, h9, h10, h11, h12⟩ := h
    simp [dtypeWidth, h1, h2, h3, h4, h5, h6, h7, h8, h9, h10, h11, h12]
  simp [query_binary_values, hw]

/-- Witness for `invalid_datatype_no_io` at the unsupported datatype `x`. -/
theorem invalid_datatype_no_io_witness :
    ('x' ∉ (['b', 'B', 'h', 'H', 'i', 'l', 'I', 'L', 'q', 'Q', 'f', 'd'] :
      List Char)) ∧
    query_binary_values "curve?" 'x' true true 10 false ⟨[35, 49, 50], [], 10, []⟩ =
      (Except.error (PyErr.binblockError "Invalid data type selected."),
        ⟨[35, 49, 50], [], 10, []⟩) :=
  ⟨by decide, invalid_datatype_no_io "curve?" 'x' true true 10 false
    ⟨[35, 49, 50], [], 10, []⟩ (by decide)⟩

end Socketscpi
